import Mathlib

/-!
Verification of the notebook synchronization engine of meteorite-ide
(source: src/unnamed/part_001, the EduStorageService / NotebookBinding /
InMemoryFirestoreClient / InMemoryNotebookCache module).

The engine is embedded shallowly: the in-memory remote store and the local
cache become pure functions over association lists keyed by the string
"userId::notebookId" (exactly the key scheme of the source), and the
stateful NotebookBinding methods become explicit state-passing functions
over a World record bundling the remote store, the cache, the binding
fields and the live document model.  Network reachability is injected
through a schedule of booleans consumed one entry per remote-store call:
a true entry lets the call run against the in-memory client, a false entry
makes it fail with the offline condition, exactly as an unreachable remote
store surfaces to the engine.  An empty schedule means the store is
reachable.  Versions are integers (JavaScript numbers under +, -, max and
comparison); timestamps are naturals (only compared).
-/

/-- One serialized output item of a cell output (mime, base64 payload,
metadata).  The payload and metadata are carried verbatim by the engine,
so they are embedded as plain strings. -/
structure SerializedOutputItem where
  mime : String
  data : String
  metadata : Option String
  deriving Repr, DecidableEq

/-- One serialized cell output: optional output id, metadata, items. -/
structure SerializedCellOutput where
  outputId : Option String
  metadata : Option String
  items : List SerializedOutputItem
  deriving Repr, DecidableEq

/-- TranscriptMessage of the source: chat record keyed by id, ordered by
timestamp. -/
structure TranscriptMessage where
  id : String
  role : String
  text : String
  timestamp : Nat
  deriving Repr, DecidableEq

/-- MCQAnswerSnapshot of the source, keyed by questionId, with freshness
decided by updatedAt. -/
structure MCQAnswerSnapshot where
  questionId : String
  selectedOptionIds : List String
  correctOptionIds : Option (List String)
  confidence : Option Nat
  updatedAt : Nat
  deriving Repr, DecidableEq

/-- EduNotebookCellSnapshot of the source.  The cell metadata maps are
carried verbatim by the engine and are embedded as optional strings. -/
structure EduNotebookCellSnapshot where
  id : String
  handle : Nat
  uri : String
  kind : Nat
  language : String
  mime : Option String
  content : String
  metadata : Option String
  internalMetadata : Option String
  outputs : List SerializedCellOutput
  lastModified : Nat
  deriving Repr, DecidableEq

/-- LessonProgressRecord payload: carried verbatim by the engine (only
copied or chosen whole), so it is embedded as one opaque string value. -/
abbrev LessonProgress := String

/-- EduNotebookSnapshot of the source: the unit of persistence.  The
mcqAnswers record is an insertion-ordered map from questionId to answer,
embedded as an association list.  The version field is an integer and the
pending flag is the optional boolean of the source. -/
structure EduNotebookSnapshot where
  userId : String
  notebookId : String
  notebookUri : String
  viewType : String
  metadata : String
  transientOptions : String
  cells : List EduNotebookCellSnapshot
  transcripts : List TranscriptMessage
  mcqAnswers : List (String × MCQAnswerSnapshot)
  lessonProgress : Option LessonProgress
  version : Int
  updatedAt : Nat
  pending : Option Bool
  deriving Repr, DecidableEq

/-- NotebookSessionState of the source. -/
structure NotebookSessionState where
  userId : String
  notebookId : String
  notebookUri : String
  viewType : String
  sessionId : String
  lastOpened : Nat
  deriving Repr, DecidableEq

/-- Distinguished store errors of the source: ConflictError thrown by the
in-memory client on an expected-version mismatch, and OfflineError raised
when the remote store is unreachable.  These are the only errors the
modeled collaborators produce. -/
inductive StoreErr where
  | conflict
  | offline
  deriving Repr, DecidableEq

/-- Association-list lookup, modeling JavaScript Map.get on string keys. -/
def alookup {α : Type} : List (String × α) → String → Option α
  | [], _ => none
  | (k', v) :: rest, k => if k' = k then some v else alookup rest k

/-- Association-list update, modeling JavaScript Map.set: an existing key
is overwritten in place (keeping its position), a new key is appended. -/
def mset {α : Type} : List (String × α) → String → α → List (String × α)
  | [], k, v => [(k, v)]
  | (k', v') :: rest, k, v =>
      if k' = k then (k, v) :: rest else (k', v') :: mset rest k v

/-- Key of a notebook document in both stores: userId ++ "::" ++ notebookId,
the key scheme of InMemoryFirestoreClient.key and InMemoryNotebookCache.key. -/
def nbKey (userId notebookId : String) : String :=
  userId ++ "::" ++ notebookId

/-- Character-list test that the second list starts the first. -/
def listStarts : List Char → List Char → Bool
  | [], _ => true
  | _ :: _, [] => false
  | p :: ps, c :: cs => p == c && listStarts ps cs

/-- Models key.startsWith(userId ++ "::") used by consumePendingSnapshots. -/
def keyMatches (pre key : String) : Bool :=
  listStarts pre.data key.data

/-- Conflict test of InMemoryFirestoreClient.saveNotebook: a save conflicts
exactly when a document already exists for the key, an expected version was
supplied, and the stored version differs from it. -/
def conflictsWith (current : Option EduNotebookSnapshot)
    (expectedVersion : Option Int) : Bool :=
  match current, expectedVersion with
  | some c, some v => if c.version = v then false else true
  | _, _ => false

/-- InMemoryFirestoreClient.saveNotebook as a pure function on the notebook
map: throwing ConflictError becomes returning the conflict error, otherwise
the (deep-cloned, here structurally identical) snapshot is stored under its
own key and returned. -/
def saveNotebookFS (fs : List (String × EduNotebookSnapshot))
    (snapshot : EduNotebookSnapshot) (expectedVersion : Option Int) :
    Except StoreErr (List (String × EduNotebookSnapshot) × EduNotebookSnapshot) :=
  let key := nbKey snapshot.userId snapshot.notebookId
  if conflictsWith (alookup fs key) expectedVersion then
    .error .conflict
  else
    .ok (mset fs key snapshot, snapshot)

/-- The document model as the engine sees one cell of it: the fields read
by NotebookBinding.serializeCell.  The eduCellId field stands for the
metadata.custom id chain consulted by resolveCellId; output serialization
(asDto / base64 encoding) is carried as an already-serialized payload. -/
structure ModelCell where
  handle : Nat
  uri : String
  cellKind : Nat
  language : String
  mime : Option String
  content : String
  eduCellId : Option String
  metadata : Option String
  internalMetadata : Option String
  outputs : List SerializedCellOutput
  deriving Repr, DecidableEq

/-- The document model as the engine sees it (PersistableNotebookModel). -/
structure ModelState where
  cells : List ModelCell
  metadata : String
  transientOptions : String
  deriving Repr, DecidableEq

/-- The binding context fixed at construction. -/
structure BindingCtx where
  userId : String
  notebookId : String
  notebookUri : String
  viewType : String
  sessionId : String
  deriving Repr, DecidableEq

/-- The mutable fields of NotebookBinding used by the save and restore
protocols. -/
structure BindingState where
  version : Int
  lastSnapshot : Option EduNotebookSnapshot
  transcripts : List TranscriptMessage
  mcqAnswers : List (String × MCQAnswerSnapshot)
  deriving Repr, DecidableEq

/-- The source tag of NotebookRestorationResult. -/
inductive RestoreSource where
  | remote
  | localCache
  | empty
  deriving Repr, DecidableEq

/-- NotebookRestorationResult of the source. -/
structure NotebookRestorationResult where
  appliedRemote : Bool
  source : RestoreSource
  deriving Repr, DecidableEq

/-- The whole system state: remote store maps, local cache maps, binding
state, document model, plus the reachability schedule, the clock value, and
two event counters (network saveNotebook calls issued, onDidPersist events
fired) that record the observable actions of the engine.  The applied field
records the snapshot passed to model.reset by applySnapshot, the external
document-model operation. -/
structure World where
  fsNotebooks : List (String × EduNotebookSnapshot)
  fsSessions : List (String × NotebookSessionState)
  cacheNotebooks : List (String × EduNotebookSnapshot)
  cacheSessions : List (String × NotebookSessionState)
  cachePending : List (String × List EduNotebookSnapshot)
  binding : BindingState
  model : ModelState
  applied : Option EduNotebookSnapshot
  sched : List Bool
  now : Nat
  saveCalls : Nat
  persistFired : Nat
  deriving Repr, DecidableEq

/-- Online part of a firestore saveNotebook call against the in-memory
client. -/
def fsSaveNotebookOnline (w : World) (snapshot : EduNotebookSnapshot)
    (expectedVersion : Option Int) : World × Except StoreErr EduNotebookSnapshot :=
  match saveNotebookFS w.fsNotebooks snapshot expectedVersion with
  | .error e => (w, .error e)
  | .ok (fs2, persisted) => ({ w with fsNotebooks := fs2 }, .ok persisted)

/-- A firestore saveNotebook call: consumes one schedule entry (reachable
when the schedule is exhausted), counts the issued network save, and either
runs the in-memory client or fails offline. -/
def fsSaveNotebook (w : World) (snapshot : EduNotebookSnapshot)
    (expectedVersion : Option Int) : World × Except StoreErr EduNotebookSnapshot :=
  match w.sched with
  | [] => fsSaveNotebookOnline { w with saveCalls := w.saveCalls + 1 } snapshot expectedVersion
  | true :: rest =>
      fsSaveNotebookOnline { w with sched := rest, saveCalls := w.saveCalls + 1 }
        snapshot expectedVersion
  | false :: rest =>
      ({ w with sched := rest, saveCalls := w.saveCalls + 1 }, .error .offline)

/-- A firestore getNotebook call: reachable reads return the stored
snapshot (or none), unreachable reads fail offline. -/
def fsGetNotebook (w : World) (userId notebookId : String) :
    World × Except StoreErr (Option EduNotebookSnapshot) :=
  match w.sched with
  | [] => (w, .ok (alookup w.fsNotebooks (nbKey userId notebookId)))
  | true :: rest =>
      let w1 := { w with sched := rest }
      (w1, .ok (alookup w1.fsNotebooks (nbKey userId notebookId)))
  | false :: rest => ({ w with sched := rest }, .error .offline)

/-- A firestore saveSession call. -/
def fsSaveSession (w : World) (session : NotebookSessionState) :
    World × Except StoreErr Unit :=
  match w.sched with
  | [] => ({ w with fsSessions := mset w.fsSessions session.userId session }, .ok ())
  | true :: rest =>
      ({ w with sched := rest, fsSessions := mset w.fsSessions session.userId session }, .ok ())
  | false :: rest => ({ w with sched := rest }, .error .offline)

/-- A firestore deletePendingSnapshot call: the in-memory client makes this
a no-op, but it is still a remote call and can fail offline. -/
def fsDeletePendingSnapshot (w : World) : World × Except StoreErr Unit :=
  match w.sched with
  | [] => (w, .ok ())
  | true :: rest => ({ w with sched := rest }, .ok ())
  | false :: rest => ({ w with sched := rest }, .error .offline)

/-- InMemoryNotebookCache.writeNotebook. -/
def cacheWriteNotebook (w : World) (s : EduNotebookSnapshot) : World :=
  { w with cacheNotebooks := mset w.cacheNotebooks (nbKey s.userId s.notebookId) s }

/-- InMemoryNotebookCache.storePendingSnapshot: appends the snapshot to the
pending list of the given (user, notebook) key. -/
def storePendingSnapshot (w : World) (userId notebookId : String)
    (s : EduNotebookSnapshot) : World :=
  let key := nbKey userId notebookId
  { w with cachePending := mset w.cachePending key ((alookup w.cachePending key).getD [] ++ [s]) }

/-- InMemoryNotebookCache.consumePendingSnapshots: drains (returns and
deletes) every pending list whose key starts with userId ++ "::",
concatenated in map iteration order. -/
def consumePendingSnapshots (w : World) (userId : String) :
    World × List EduNotebookSnapshot :=
  let pre := userId ++ "::"
  ({ w with cachePending := w.cachePending.filter (fun kv => !(keyMatches pre kv.1)) },
   (w.cachePending.filter (fun kv => keyMatches pre kv.1)).foldl
     (fun acc kv => acc ++ kv.2) [])

/-- NotebookBinding.resolveCellId: the id from the metadata.custom chain if
present, otherwise the cell uri. -/
def resolveCellId (cell : ModelCell) : String :=
  match cell.eduCellId with
  | some eduId => eduId
  | none => cell.uri

/-- NotebookBinding.serializeCell: a cell snapshot of the live model cell,
stamped with the capture timestamp. -/
def serializeCell (cell : ModelCell) (timestamp : Nat) : EduNotebookCellSnapshot :=
  { id := resolveCellId cell
    handle := cell.handle
    uri := cell.uri
    kind := cell.cellKind
    language := cell.language
    mime := cell.mime
    content := cell.content
    metadata := cell.metadata
    internalMetadata := cell.internalMetadata
    outputs := cell.outputs
    lastModified := timestamp }

/-- NotebookBinding.captureSnapshot: a fresh snapshot of the live model at
version this.version + 1, stamped now, carrying the binding transcripts and
answers and the lessonProgress of the last known snapshot. -/
def captureSnapshot (ctx : BindingCtx) (b : BindingState) (model : ModelState)
    (now : Nat) : EduNotebookSnapshot :=
  { userId := ctx.userId
    notebookId := ctx.notebookId
    notebookUri := ctx.notebookUri
    viewType := ctx.viewType
    metadata := model.metadata
    transientOptions := model.transientOptions
    cells := model.cells.map (fun c => serializeCell c now)
    transcripts := b.transcripts
    mcqAnswers := b.mcqAnswers
    lessonProgress := b.lastSnapshot.bind (fun s => s.lessonProgress)
    version := b.version + 1
    updatedAt := now
    pending := none }

/-- The remote-cells map of mergeSnapshots: new Map(remote.cells.map(cell
to [cell.id, cell])), so a later cell with the same id overwrites an
earlier one. -/
def mapFromCells (cells : List EduNotebookCellSnapshot) :
    List (String × EduNotebookCellSnapshot) :=
  cells.foldl (fun m c => mset m c.id c) []

/-- Membership test on the seen id list (JavaScript Set.has). -/
def containsStr (l : List String) (s : String) : Bool :=
  l.any (fun x => x == s)

/-- The cell pass of NotebookBinding.mergeSnapshots: for each local cell
keep it unless a remote counterpart exists with a strictly larger
lastModified (local wins ties), then append the remote cells whose id was
not chosen, in remote order. -/
def mergeCellLists (localCells remoteCells : List EduNotebookCellSnapshot) :
    List EduNotebookCellSnapshot :=
  let remoteMap := mapFromCells remoteCells
  let pass := localCells.foldl
    (fun (acc : List EduNotebookCellSnapshot × List String) cell =>
      let chosen :=
        match alookup remoteMap cell.id with
        | none => cell
        | some remoteCell =>
            if remoteCell.lastModified ≤ cell.lastModified then cell else remoteCell
      (acc.1 ++ [chosen], acc.2 ++ [chosen.id]))
    ([], [])
  pass.1 ++ remoteCells.filter (fun c => !(containsStr pass.2 c.id))

/-- Ascending stable insertion by timestamp (JavaScript stable sort with
comparator a.timestamp - b.timestamp). -/
def insertByTs (m : TranscriptMessage) : List TranscriptMessage → List TranscriptMessage
  | [] => [m]
  | x :: xs => if x.timestamp ≤ m.timestamp then x :: insertByTs m xs else m :: x :: xs

/-- Stable ascending sort by timestamp. -/
def sortByTimestamp (l : List TranscriptMessage) : List TranscriptMessage :=
  l.foldl (fun acc m => insertByTs m acc) []

/-- NotebookBinding.mergeTranscriptArrays: union by id with local winning
on equal-or-newer timestamp, sorted ascending by timestamp. -/
def mergeTranscriptArrays (localMsgs remoteMsgs : List TranscriptMessage) :
    List TranscriptMessage :=
  let m0 := remoteMsgs.foldl (fun m msg => mset m msg.id msg) []
  let m1 := localMsgs.foldl
    (fun m msg =>
      match alookup m msg.id with
      | none => mset m msg.id msg
      | some existing =>
          if existing.timestamp ≤ msg.timestamp then mset m msg.id msg else m)
    m0
  sortByTimestamp (m1.map (fun kv => kv.2))

/-- NotebookBinding.mergeMcqAnswers: union by question id with local
winning on equal-or-newer updatedAt. -/
def mergeMcqAnswers (localA remoteA : List (String × MCQAnswerSnapshot)) :
    List (String × MCQAnswerSnapshot) :=
  let m0 := remoteA.foldl (fun m kv => mset m kv.1 kv.2) []
  localA.foldl
    (fun m kv =>
      match alookup m kv.1 with
      | none => mset m kv.1 kv.2
      | some existing =>
          if existing.updatedAt ≤ kv.2.updatedAt then mset m kv.1 kv.2 else m)
    m0

/-- NotebookBinding.mergeSnapshots: field-by-field deterministic merge;
metadata from the side with the larger updatedAt (local wins ties),
transient options always local, cells and transcripts and answers merged
per element, lesson progress local-first, version max + 1, updatedAt now. -/
def mergeSnapshots (ctx : BindingCtx) (now : Nat)
    (localSnap remoteSnap : EduNotebookSnapshot) : EduNotebookSnapshot :=
  { userId := ctx.userId
    notebookId := ctx.notebookId
    notebookUri := ctx.notebookUri
    viewType := ctx.viewType
    metadata :=
      if remoteSnap.updatedAt ≤ localSnap.updatedAt then localSnap.metadata
      else remoteSnap.metadata
    transientOptions := localSnap.transientOptions
    cells := mergeCellLists localSnap.cells remoteSnap.cells
    transcripts := mergeTranscriptArrays localSnap.transcripts remoteSnap.transcripts
    mcqAnswers := mergeMcqAnswers localSnap.mcqAnswers remoteSnap.mcqAnswers
    lessonProgress :=
      match localSnap.lessonProgress with
      | some p => some p
      | none => remoteSnap.lessonProgress
    version := max localSnap.version remoteSnap.version + 1
    updatedAt := now
    pending := none }

/-- NotebookBinding.chooseSnapshot: with both present prefer the larger
updatedAt (remote wins ties); otherwise whichever exists. -/
def chooseSnapshot (remote cached : Option EduNotebookSnapshot) :
    Option EduNotebookSnapshot :=
  match remote, cached with
  | some r, some c => if c.updatedAt ≤ r.updatedAt then some r else some c
  | some r, none => some r
  | none, some c => some c
  | none, none => none

/-- NotebookBinding.applySnapshot: seed the binding version, transcripts,
answer map and last-known snapshot from the chosen snapshot, and reset the
live document model from it.  The reset is an operation of the external
document model; the applied field records the snapshot handed to it. -/
def applySnapshot (w : World) (s : EduNotebookSnapshot) : World :=
  { w with
      binding :=
        { version := s.version
          lastSnapshot := some s
          transcripts := s.transcripts
          mcqAnswers := s.mcqAnswers }
      applied := some s }

/-- NotebookBinding.persistSession: write the session to the cache, then
save it remotely, swallowing only the offline condition. -/
def persistSession (ctx : BindingCtx) (w : World) : World × Except StoreErr Unit :=
  let session : NotebookSessionState :=
    { userId := ctx.userId
      notebookId := ctx.notebookId
      notebookUri := ctx.notebookUri
      viewType := ctx.viewType
      sessionId := ctx.sessionId
      lastOpened := w.now }
  let w1 := { w with cacheSessions := mset w.cacheSessions session.userId session }
  match fsSaveSession w1 session with
  | (w2, .ok _) => (w2, .ok ())
  | (w2, .error .offline) => (w2, .ok ())
  | (w2, .error e) => (w2, .error e)

/-- NotebookBinding.handleConflict: fetch the current remote snapshot; if
it vanished, resubmit the local snapshot unconditionally; otherwise merge,
record the merged snapshot as the candidate (version tracker, last known,
cache) and retry with the pre-merge remote version as expected version,
queueing the merged snapshot pending on an offline failure.  Errors of the
fetch, of the unconditional resubmit, and non-offline errors of the retry
propagate. -/
def handleConflict (ctx : BindingCtx) (localSnapshot : EduNotebookSnapshot)
    (w : World) : World × Except StoreErr Unit :=
  match fsGetNotebook w ctx.userId ctx.notebookId with
  | (w1, .error e) => (w1, .error e)
  | (w1, .ok none) =>
      let w2 := { w1 with binding := { w1.binding with version := localSnapshot.version } }
      match fsSaveNotebook w2 localSnapshot none with
      | (w3, .error e) => (w3, .error e)
      | (w3, .ok _) => ({ w3 with persistFired := w3.persistFired + 1 }, .ok ())
  | (w1, .ok (some remoteSnap)) =>
      let merged := mergeSnapshots ctx w1.now localSnapshot remoteSnap
      let w2 :=
        { w1 with
            binding := { w1.binding with version := merged.version, lastSnapshot := some merged } }
      let w3 := cacheWriteNotebook w2 merged
      match fsSaveNotebook w3 merged (some remoteSnap.version) with
      | (w4, .ok _) => ({ w4 with persistFired := w4.persistFired + 1 }, .ok ())
      | (w4, .error .offline) =>
          (storePendingSnapshot w4 ctx.userId ctx.notebookId { merged with pending := some true },
           .ok ())
      | (w4, .error e) => (w4, .error e)

/-- NotebookBinding.persistInternal: capture a snapshot, record it as last
known, write it to the cache unconditionally, then save it remotely with
expectedVersion = the tracked version.  On success adopt the persisted
snapshot (version tracker, last known, cache), invoke the remote
deletePendingSnapshot hook and fire the persisted event; a ConflictError
is handled by handleConflict, an OfflineError queues the captured snapshot
pending (flagged pending = true); afterwards the session state is
persisted.  Errors re-thrown from the handler skip the session step and
propagate. -/
def persistInternal (ctx : BindingCtx) (w : World) : World × Except StoreErr Unit :=
  let snapshot := captureSnapshot ctx w.binding w.model w.now
  let w1 := { w with binding := { w.binding with lastSnapshot := some snapshot } }
  let w2 := cacheWriteNotebook w1 snapshot
  let attempt : World × Except StoreErr Unit :=
    match fsSaveNotebook w2 snapshot (some w2.binding.version) with
    | (w3, .ok persisted) =>
        let w4 :=
          { w3 with
              binding :=
                { w3.binding with version := persisted.version, lastSnapshot := some persisted } }
        let w5 := cacheWriteNotebook w4 persisted
        (match fsDeletePendingSnapshot w5 with
         | (w6, .ok _) => ({ w6 with persistFired := w6.persistFired + 1 }, .ok ())
         | (w6, .error .conflict) => handleConflict ctx snapshot w6
         | (w6, .error .offline) =>
             (storePendingSnapshot w6 ctx.userId ctx.notebookId
                { snapshot with pending := some true }, .ok ()))
    | (w3, .error .conflict) => handleConflict ctx snapshot w3
    | (w3, .error .offline) =>
        (storePendingSnapshot w3 ctx.userId ctx.notebookId
           { snapshot with pending := some true }, .ok ())
  match attempt with
  | (wA, .ok _) => persistSession ctx wA
  | (wA, .error e) => (wA, .error e)

/-- NotebookBinding.flush: cancel the debounce delayer and run
ensurePersist.  With no save already in flight, ensurePersist runs
persistInternal once and returns its outcome. -/
def flush (ctx : BindingCtx) (w : World) : World × Except StoreErr Unit :=
  persistInternal ctx w

/-- The replay loop of NotebookBinding.performRestore: each drained pending
snapshot is resubmitted with its pending flag cleared and expectedVersion =
pending.version - 1; an offline failure re-queues that snapshot under the
binding key and stops the loop; any other failure is swallowed and the loop
continues. -/
def replayPending (ctx : BindingCtx) : List EduNotebookSnapshot → World → World
  | [], w => w
  | p :: rest, w =>
      match fsSaveNotebook w { p with pending := none } (some (p.version - 1)) with
      | (w1, .ok _) => replayPending ctx rest w1
      | (w1, .error .offline) => storePendingSnapshot w1 ctx.userId ctx.notebookId p
      | (w1, .error .conflict) => replayPending ctx rest w1

/-- Tail of NotebookBinding.performRestore after the remote read: replay
the drained pending snapshots when any exist and a remote snapshot was
found, choose between remote and cached snapshot, apply it, and report
appliedRemote and source from the presence of the remote snapshot. -/
def restoreFinish (ctx : BindingCtx) (w : World)
    (remote cached : Option EduNotebookSnapshot)
    (cachedPending : List EduNotebookSnapshot) :
    World × Except StoreErr NotebookRestorationResult :=
  let w1 :=
    if !cachedPending.isEmpty && remote.isSome then replayPending ctx cachedPending w else w
  match chooseSnapshot remote cached with
  | some s =>
      (applySnapshot w1 s,
       .ok { appliedRemote := remote.isSome
             source := if remote.isSome then .remote else .localCache })
  | none => (w1, .ok { appliedRemote := false, source := .empty })

/-- NotebookBinding.performRestore: drain the pending snapshots of the
user, read the cached snapshot, read the remote snapshot swallowing only
the offline condition, then finish with replay, choice, apply and report. -/
def performRestore (ctx : BindingCtx) (w : World) :
    World × Except StoreErr NotebookRestorationResult :=
  let (w1, cachedPending) := consumePendingSnapshots w ctx.userId
  let cached := alookup w1.cacheNotebooks (nbKey ctx.userId ctx.notebookId)
  match fsGetNotebook w1 ctx.userId ctx.notebookId with
  | (w2, .error .offline) => restoreFinish ctx w2 none cached cachedPending
  | (w2, .error e) => (w2, .error e)
  | (w2, .ok remote) => restoreFinish ctx w2 remote cached cachedPending

/-!
Operational model of the write scheduler NotebookBinding.ensurePersist.

The source keeps a pendingPersist variable.  A trigger with the variable
empty starts persistInternal immediately and stores
persistInternal().finally(clear) in the variable; a trigger with the
variable set replaces it with pendingPersist.then(start next
persistInternal).finally(clear), where every clear handler unconditionally
resets the variable to undefined.  Promise semantics give each such chain a
linear shape: one running persistInternal (the head job) followed by the
continuations queued behind it.  When the head job of a chain settles, its
clear handler fires first (resetting the variable to undefined regardless
of what the variable holds by then) and then the next queued continuation,
if any, starts its persistInternal within the same microtask drain; a
trigger is a macrotask and can only arrive between such drains.

The model therefore keeps the live chains (each as its queued-continuation
count; every live chain has exactly one running save), the variable as an
optional chain id, and a fresh-id counter.  A trigger event runs
ensurePersist once; a settle event completes the running save of one chain
together with its settlement microtask drain.
-/

/-- One live promise chain of the scheduler: its identity and the number of
persistInternal continuations queued behind its currently running save. -/
structure PersistChain where
  id : Nat
  queuedJobs : Nat
  deriving Repr, DecidableEq

/-- The scheduler state: live chains, the pendingPersist variable as an
optional chain id, and the next fresh chain id. -/
structure PersistScheduler where
  chains : List PersistChain
  pendingVar : Option Nat
  nextId : Nat
  deriving Repr, DecidableEq

/-- Scheduler events: a persist trigger (a flush or a fired debounce
delayer, running ensurePersist once), or the settlement of the running
save of the chain with the given id. -/
inductive PersistEvent where
  | trigger
  | settle (id : Nat)
  deriving Repr, DecidableEq

/-- One scheduler step.  trigger with an empty variable starts a new chain
whose head save runs at once and stores its promise in the variable;
trigger with the variable set appends one continuation to that chain (the
variable now holds the extended chain).  settle completes the running head
save of the named chain: the finally handler attached at its creation
resets the variable to undefined unconditionally, and the next queued
continuation, if any, starts running. -/
def schedStep (s : PersistScheduler) : PersistEvent → PersistScheduler
  | .trigger =>
      match s.pendingVar with
      | none =>
          { chains := s.chains ++ [{ id := s.nextId, queuedJobs := 0 }]
            pendingVar := some s.nextId
            nextId := s.nextId + 1 }
      | some c =>
          { s with
              chains := s.chains.map
                (fun ch => if ch.id == c then { ch with queuedJobs := ch.queuedJobs + 1 } else ch) }
  | .settle i =>
      if s.chains.any (fun ch => ch.id == i) then
        { s with
            chains := s.chains.filterMap
              (fun ch =>
                if ch.id == i then
                  if ch.queuedJobs == 0 then none
                  else some { ch with queuedJobs := ch.queuedJobs - 1 }
                else some ch)
            pendingVar := none }
      else s

/-- Number of persistInternal executions currently in flight: one running
head save per live chain. -/
def inFlight (s : PersistScheduler) : Nat :=
  s.chains.length

/-- Run the scheduler from the initial state (no chain, empty variable)
through a list of events. -/
def schedRun (events : List PersistEvent) : PersistScheduler :=
  events.foldl schedStep { chains := [], pendingVar := none, nextId := 0 }

/-! Concrete instances used by the counterexamples and witnesses. -/

/-- The binding context of the concrete scenarios. -/
def ctx0 : BindingCtx :=
  { userId := "u", notebookId := "n", notebookUri := "uri:n", viewType := "edu", sessionId := "s" }

/-- Binding state with version v and nothing buffered. -/
def bindingAt (v : Int) : BindingState :=
  { version := v, lastSnapshot := none, transcripts := [], mcqAnswers := [] }

/-- A one-cell document model. -/
def model0 : ModelState :=
  { cells :=
      [{ handle := 0, uri := "cell:0", cellKind := 2, language := "python", mime := none,
         content := "print(1)", eduCellId := some "c0", metadata := none,
         internalMetadata := none, outputs := [] }]
    metadata := "docmeta"
    transientOptions := "transient" }

/-- Baseline world: empty stores, reachable network, clock at 100. -/
def baseWorld : World :=
  { fsNotebooks := [], fsSessions := [], cacheNotebooks := [], cacheSessions := [],
    cachePending := [], binding := bindingAt 0, model := model0, applied := none,
    sched := [], now := 100, saveCalls := 0, persistFired := 0 }

/-- A minimal snapshot for user u, notebook n, with the given version,
updatedAt and pending flag. -/
def snapAt (version : Int) (updatedAt : Nat) (pending : Option Bool) : EduNotebookSnapshot :=
  { userId := "u", notebookId := "n", notebookUri := "uri:n", viewType := "edu",
    metadata := "m", transientOptions := "t", cells := [], transcripts := [],
    mcqAnswers := [], lessonProgress := none, version := version,
    updatedAt := updatedAt, pending := pending }

/-- A minimal cell snapshot with the given id and lastModified. -/
def cellAt (cid : String) (lm : Nat) : EduNotebookCellSnapshot :=
  { id := cid, handle := 0, uri := "cell:" ++ cid, kind := 2, language := "python",
    mime := none, content := cid, metadata := none, internalMetadata := none,
    outputs := [], lastModified := lm }

/-- A snapshot of user u, notebook n, holding the given cells. -/
def snapWithCells (cells : List EduNotebookCellSnapshot) : EduNotebookSnapshot :=
  { snapAt 1 10 none with cells := cells }

/-- First pending snapshot of the C1 scenario. -/
def c1pending1 : EduNotebookSnapshot := snapAt 5 50 (some true)

/-- Second pending snapshot of the C1 scenario. -/
def c1pending2 : EduNotebookSnapshot := snapAt 6 60 (some true)

/-- Remote document present during the C1 restore. -/
def c1remoteDoc : EduNotebookSnapshot := snapAt 1 10 none

/-- C1 scenario: two pending snapshots queued for the document, a remote
document present, and a network that answers the restore read but is
offline again for the first replay save. -/
def c1World : World :=
  { baseWorld with
      fsNotebooks := [(nbKey "u" "n", c1remoteDoc)]
      cachePending := [(nbKey "u" "n", [c1pending1, c1pending2])]
      sched := [true, false] }

/-- Remote document stored during the C2 scenario, at version 5. -/
def c2stored : EduNotebookSnapshot := snapAt 5 50 none

/-- C2 scenario: the binding tracks version 3 while the remote store holds
version 5 (the state restore leaves behind when the cached snapshot was
fresher), and the network is reachable for the save but offline for the
conflict-handling fetch. -/
def c2World : World :=
  { baseWorld with
      fsNotebooks := [(nbKey "u" "n", c2stored)]
      binding := bindingAt 3
      sched := [true, false] }

/-- C2 conflict state without a schedule: stored version 5, tracked
version 3, as left behind by a restore that preferred a fresher cached
snapshot. -/
def c2baseWorld : World :=
  { baseWorld with fsNotebooks := [(nbKey "u" "n", c2stored)], binding := bindingAt 3 }

/-- Pending snapshot queued in the cache during the C3 scenario. -/
def c3queued : EduNotebookSnapshot := snapAt 9 90 (some true)

/-- C3 scenario: a pending snapshot sits in the local cache queue and the
network is fully reachable, so the scheduled write succeeds. -/
def c3World : World :=
  { baseWorld with cachePending := [(nbKey "u" "n", [c3queued])] }

/-- Remote snapshot of the C5 scenario (older updatedAt). -/
def c5remoteSnap : EduNotebookSnapshot := snapAt 3 100 none

/-- Cached snapshot of the C5 scenario (strictly larger updatedAt). -/
def c5cachedSnap : EduNotebookSnapshot := snapAt 2 200 none

/-- C5 scenario: both snapshots exist and the cached one is fresher. -/
def c5World : World :=
  { baseWorld with
      fsNotebooks := [(nbKey "u" "n", c5remoteSnap)]
      cacheNotebooks := [(nbKey "u" "n", c5cachedSnap)] }

/-- Local cell of the C9 witness scenario. -/
def cellA : EduNotebookCellSnapshot := cellAt "x" 1

/-- Remote cell of the C9 witness scenario, same id, newer. -/
def cellB : EduNotebookCellSnapshot := cellAt "x" 2

/-- Snapshot holding only cellA. -/
def snapA : EduNotebookSnapshot := snapWithCells [cellA]

/-- Snapshot holding only cellB. -/
def snapB : EduNotebookSnapshot := snapWithCells [cellB]

/-- Version monotonicity of the remote store across one engine operation,
at one key: the stored document for that key is either untouched or
replaced by one with a strictly larger version.  Every successful remote
save the engine performs at an existing document strictly increases its
version, so a whole operation (which may chain several saves) satisfies
this relation. -/
def remoteVersionMono (w w' : World) (k : String) : Prop :=
  ∀ cur, alookup w.fsNotebooks k = some cur →
    alookup w'.fsNotebooks k = some cur ∨
    ∃ s', alookup w'.fsNotebooks k = some s' ∧ cur.version < s'.version

/-!
Theorems.  First the association-map helper lemmas shared by the proofs,
then one theorem (plus witness or counterexample where required) per
claim.
-/

/-- Looking up the key just set returns the value just set. -/
@[simp] theorem alookup_mset_self {α : Type} (l : List (String × α)) (k : String) (v : α) :
    alookup (mset l k v) k = some v := by
  induction l with
  | nil => simp [mset, alookup]
  | cons hd tl ih =>
      by_cases h : hd.1 = k
      · simp [mset, h, alookup]
      · simp [mset, h, alookup, ih]

/-- Setting one key leaves the lookup of a different key unchanged. -/
theorem alookup_mset_ne {α : Type} (l : List (String × α)) (k k' : String) (v : α)
    (h : k' ≠ k) : alookup (mset l k' v) k = alookup l k := by
  induction l with
  | nil => simp [mset, alookup, h]
  | cons hd tl ih =>
      by_cases h2 : hd.1 = k'
      · simp [mset, h2, alookup, h]
      · simp [mset, h2, alookup, ih]

/-- Claim C1 is false as stated: in the C1 scenario both pending snapshots
are drained, the first replay fails offline and is re-queued, but the
second drained pending snapshot is neither delivered to the remote store
(which still holds only the version-1 document) nor re-queued in the local
cache; it is dropped. -/
theorem c1_counterexample :
    alookup c1World.cachePending (nbKey "u" "n") = some [c1pending1, c1pending2] ∧
    (performRestore ctx0 c1World).1.cachePending = [(nbKey "u" "n", [c1pending1])] ∧
    (performRestore ctx0 c1World).1.fsNotebooks = [(nbKey "u" "n", c1remoteDoc)] :=
  ⟨rfl, rfl, rfl⟩

/-- Claim C2 is false as stated: in the C2 scenario the scheduled write has
its remote save fail with a Conflict (the tracked version 3 differs from
the stored version 5), yet the caller of flush receives an error, because
the conflict-handling fetch of the remote snapshot fails offline and that
failure is not caught. -/
theorem c2_counterexample :
    conflictsWith (alookup c2World.fsNotebooks (nbKey "u" "n"))
        (some c2World.binding.version) = true ∧
    (persistInternal ctx0 c2World).2 = .error .offline :=
  ⟨rfl, rfl⟩

/-- Claim C3 is false as stated: in the C3 scenario the scheduled write
succeeds (the persisted notification fires), yet the pending snapshot
queued in the local cache for this (user, document) pair is still there
afterwards — the success path only invokes the remote deletePendingSnapshot
hook and never touches the local pending queue. -/
theorem c3_counterexample :
    (persistInternal ctx0 c3World).2 = .ok () ∧
    (persistInternal ctx0 c3World).1.persistFired = 1 ∧
    (persistInternal ctx0 c3World).1.cachePending = [(nbKey "u" "n", [c3queued])] :=
  ⟨rfl, rfl, rfl⟩

/-- Claim C5 names a real code bug: in the C5 scenario both snapshots
exist, the cached one has the strictly larger updatedAt and is the one
applied to the document model, yet the restoration result reports
source = remote and appliedRemote = true, because both fields are computed
from the mere presence of a remote snapshot. -/
theorem c5_code_divergence :
    c5remoteSnap.updatedAt < c5cachedSnap.updatedAt ∧
    (performRestore ctx0 c5World).1.applied = some c5cachedSnap ∧
    (performRestore ctx0 c5World).2 = .ok { appliedRemote := true, source := .remote } :=
  ⟨by decide, rfl, rfl⟩

/-- Claim C7 is false as stated: flushing twice in a row from the baseline
world (no intervening edits, fully reachable network) issues two network
saves, not one — persistInternal always captures and saves, with no dirty
check. -/
theorem c7_counterexample :
    baseWorld.saveCalls = 0 ∧
    (flush ctx0 baseWorld).2 = .ok () ∧
    (flush ctx0 (flush ctx0 baseWorld).1).2 = .ok () ∧
    ((flush ctx0 (flush ctx0 baseWorld).1).1).saveCalls = 2 :=
  ⟨rfl, rfl, rfl, rfl⟩

/-- Claim C8 names a real code bug: after trigger, trigger (chained while
the first save runs), settlement of the first save (whose finally handler
unconditionally clears the pendingPersist variable even though the chained
continuation is still queued), a third trigger finds the variable empty
and starts a fresh persistInternal while the chained one is still running:
two saves are in flight at once. -/
theorem c8_concurrent_saves_reachable :
    inFlight (schedRun [.trigger, .trigger, .settle 0, .trigger]) = 2 ∧
    (schedRun [.trigger, .trigger, .settle 0]).chains = [{ id := 0, queuedJobs := 0 }] :=
  ⟨rfl, rfl⟩

/-- Cell pass of the merge on two single-cell sides with a shared id: the
local cell wins on equal-or-newer lastModified, otherwise the remote cell
replaces it, and the remote pass appends nothing since the id was chosen. -/
theorem mergeCellLists_single (x y : EduNotebookCellSnapshot) (hid : x.id = y.id) :
    mergeCellLists [x] [y] = [if y.lastModified ≤ x.lastModified then x else y] := by
  unfold mergeCellLists mapFromCells
  simp only [List.foldl, mset, alookup, List.nil_append]
  rw [if_pos hid.symm]
  by_cases hts : y.lastModified ≤ x.lastModified
  · simp [hts, containsStr, hid]
  · simp [hts, containsStr]

/-- Claim C9: for two cell snapshots with the same stable id and different
lastModified timestamps, mergeSnapshots keeps the one with the larger
lastModified, whichever side is passed as local and whichever as remote. -/
theorem c9_merge_keeps_larger_timestamp (ctx : BindingCtx) (nowA nowB : Nat)
    (sA sB : EduNotebookSnapshot) (a b : EduNotebookCellSnapshot)
    (hA : sA.cells = [a]) (hB : sB.cells = [b])
    (hid : a.id = b.id) (hne : a.lastModified ≠ b.lastModified) :
    (mergeSnapshots ctx nowA sA sB).cells
        = [if a.lastModified < b.lastModified then b else a] ∧
    (mergeSnapshots ctx nowB sB sA).cells
        = [if a.lastModified < b.lastModified then b else a] := by
  have h1 := mergeCellLists_single a b hid
  have h2 := mergeCellLists_single b a hid.symm
  constructor
  · simp only [mergeSnapshots, hA, hB, h1]
    rcases Nat.lt_or_ge a.lastModified b.lastModified with h | h
    · rw [if_neg (by omega), if_pos h]
    · rw [if_pos h, if_neg (by omega)]
  · simp only [mergeSnapshots, hA, hB, h2]
    rcases Nat.lt_or_ge a.lastModified b.lastModified with h | h
    · rw [if_pos (Nat.le_of_lt h), if_pos h]
    · rw [if_neg (by omega), if_neg (by omega)]

/-- Witness for C9 at concrete cells: id x with timestamps 1 and 2; the
newer cell (cellB) is kept from both call orientations. -/
theorem c9_witness :
    snapA.cells = [cellA] ∧ snapB.cells = [cellB] ∧ cellA.id = cellB.id ∧
    cellA.lastModified ≠ cellB.lastModified ∧
    ((mergeSnapshots ctx0 7 snapA snapB).cells = [cellB] ∧
     (mergeSnapshots ctx0 8 snapB snapA).cells = [cellB]) :=
  ⟨rfl, rfl, rfl, by decide,
   c9_merge_keeps_larger_timestamp ctx0 7 8 snapA snapB cellA cellB rfl rfl rfl (by decide)⟩

/-- Claim C10: the in-memory saveNotebook conflicts exactly when a document
already exists for the (user, notebook) key, an expected version was
supplied and the stored version differs from it; with no stored document
the save succeeds for every expected version (including none), stores the
submitted snapshot unchanged (version included) and returns it. -/
theorem c10_saveNotebook_conflict_iff (fs : List (String × EduNotebookSnapshot))
    (snapshot : EduNotebookSnapshot) (ev : Option Int) :
    (saveNotebookFS fs snapshot ev = .error .conflict ↔
      ∃ cur v, alookup fs (nbKey snapshot.userId snapshot.notebookId) = some cur ∧
        ev = some v ∧ cur.version ≠ v) ∧
    (alookup fs (nbKey snapshot.userId snapshot.notebookId) = none →
      saveNotebookFS fs snapshot ev =
        .ok (mset fs (nbKey snapshot.userId snapshot.notebookId) snapshot, snapshot) ∧
      alookup (mset fs (nbKey snapshot.userId snapshot.notebookId) snapshot)
        (nbKey snapshot.userId snapshot.notebookId) = some snapshot) := by
  constructor
  · unfold saveNotebookFS conflictsWith
    rcases hl : alookup fs (nbKey snapshot.userId snapshot.notebookId) with _ | cur
    · simp [hl]
    · rcases ev with _ | v
      · simp [hl]
      · by_cases hv : cur.version = v
        · simp [hl, hv]
        · simp [hl, hv]
  · intro hnone
    unfold saveNotebookFS conflictsWith
    dsimp only
    rw [hnone]
    rcases ev with _ | v <;> simp

/-- Witness for C10 at the empty store: a save with expected version 0 and
no stored document succeeds and stores the submitted snapshot. -/
theorem c10_witness :
    alookup ([] : List (String × EduNotebookSnapshot)) (nbKey "u" "n") = none ∧
    (saveNotebookFS [] (snapAt 1 10 none) (some 0) =
        .ok ([(nbKey "u" "n", snapAt 1 10 none)], snapAt 1 10 none) ∧
      alookup [(nbKey "u" "n", snapAt 1 10 none)] (nbKey "u" "n")
        = some (snapAt 1 10 none)) :=
  ⟨rfl, (c10_saveNotebook_conflict_iff [] (snapAt 1 10 none) (some 0)).2 rfl⟩

/-- Amended claim C1: a replay attempt that fails with the offline
condition re-queues exactly that pending snapshot, unchanged, under the
binding (user, document) key, leaves the remote store untouched, and stops
the loop after that single network save — no further pending snapshot is
replayed (and none of the remaining drained snapshots is re-queued). -/
theorem c1_replay_offline_requeues_and_stops (ctx : BindingCtx)
    (p : EduNotebookSnapshot) (rest : List EduNotebookSnapshot) (w : World)
    (tail : List Bool) (h : w.sched = false :: tail) :
    (replayPending ctx (p :: rest) w).cachePending
      = mset w.cachePending (nbKey ctx.userId ctx.notebookId)
          ((alookup w.cachePending (nbKey ctx.userId ctx.notebookId)).getD [] ++ [p]) ∧
    (replayPending ctx (p :: rest) w).fsNotebooks = w.fsNotebooks ∧
    (replayPending ctx (p :: rest) w).saveCalls = w.saveCalls + 1 := by
  simp [replayPending, fsSaveNotebook, h, storePendingSnapshot]

/-- Witness for the amended C1: replaying two pending snapshots against an
offline store re-queues only the first and issues a single network save. -/
theorem c1_witness :
    ({ baseWorld with sched := [false] } : World).sched = false :: [] ∧
    ((replayPending ctx0 [c1pending1, c1pending2]
        { baseWorld with sched := [false] }).cachePending
      = [(nbKey "u" "n", [c1pending1])] ∧
     (replayPending ctx0 [c1pending1, c1pending2]
        { baseWorld with sched := [false] }).fsNotebooks = [] ∧
     (replayPending ctx0 [c1pending1, c1pending2]
        { baseWorld with sched := [false] }).saveCalls = 1) :=
  ⟨rfl, c1_replay_offline_requeues_and_stops ctx0 c1pending1 [c1pending2]
    { baseWorld with sched := [false] } [] rfl⟩

/-- Amended claim C2: when the scheduled write fails with a Conflict and
the conflict-handling fetch succeeds, the binding merges and retries with
the pre-merge remote version as expected version; an offline retry queues
the merged snapshot (flagged pending) with no error to the caller, and a
reachable retry persists the merged snapshot and fires the persisted
notification.  (If the conflict-handling fetch itself fails offline, that
error propagates to the caller — see the counterexample.) -/
theorem c2_conflict_merge_retry (ctx : BindingCtx) (w : World) (cur : EduNotebookSnapshot)
    (rs : Bool)
    (hcur : alookup w.fsNotebooks (nbKey ctx.userId ctx.notebookId) = some cur)
    (hne : cur.version ≠ w.binding.version) :
    ((persistInternal ctx { w with sched := [true, true, false, rs] }).2 = .ok () ∧
     alookup (persistInternal ctx { w with sched := [true, true, false, rs] }).1.cachePending
         (nbKey ctx.userId ctx.notebookId)
       = some ((alookup w.cachePending (nbKey ctx.userId ctx.notebookId)).getD [] ++
           [{ mergeSnapshots ctx w.now (captureSnapshot ctx w.binding w.model w.now) cur
                with pending := some true }])) ∧
    ((persistInternal ctx { w with sched := [true, true, true, rs] }).2 = .ok () ∧
     alookup (persistInternal ctx { w with sched := [true, true, true, rs] }).1.fsNotebooks
         (nbKey ctx.userId ctx.notebookId)
       = some (mergeSnapshots ctx w.now (captureSnapshot ctx w.binding w.model w.now) cur) ∧
     (persistInternal ctx { w with sched := [true, true, true, rs] }).1.persistFired
       = w.persistFired + 1) := by
  cases rs <;> constructor <;>
    simp [persistInternal, cacheWriteNotebook, fsSaveNotebook, fsSaveNotebookOnline,
      saveNotebookFS, hcur, hne, conflictsWith, handleConflict, fsGetNotebook,
      storePendingSnapshot, persistSession, fsSaveSession, captureSnapshot,
      mergeSnapshots]

/-- Witness for the amended C2 at the concrete conflict state (stored
version 5, tracked version 3). -/
theorem c2_witness :
    alookup c2baseWorld.fsNotebooks (nbKey "u" "n") = some c2stored ∧
    c2stored.version ≠ c2baseWorld.binding.version ∧
    (((persistInternal ctx0 { c2baseWorld with sched := [true, true, false, true] }).2
        = .ok () ∧
      alookup (persistInternal ctx0
          { c2baseWorld with sched := [true, true, false, true] }).1.cachePending
          (nbKey "u" "n")
        = some [{ mergeSnapshots ctx0 100 (captureSnapshot ctx0 (bindingAt 3) model0 100)
              c2stored with pending := some true }]) ∧
     ((persistInternal ctx0 { c2baseWorld with sched := [true, true, true, true] }).2
        = .ok () ∧
      alookup (persistInternal ctx0
          { c2baseWorld with sched := [true, true, true, true] }).1.fsNotebooks
          (nbKey "u" "n")
        = some (mergeSnapshots ctx0 100 (captureSnapshot ctx0 (bindingAt 3) model0 100)
            c2stored) ∧
      (persistInternal ctx0
          { c2baseWorld with sched := [true, true, true, true] }).1.persistFired = 1)) :=
  ⟨rfl, by decide, c2_conflict_merge_retry ctx0 c2baseWorld c2stored true rfl (by decide)⟩

/-- Amended claim C3: a scheduled write whose remote save succeeds updates
the version tracker to the persisted version, re-writes the confirmed
snapshot into the local cache, fires the persisted notification, and
leaves the pending queue of the local cache untouched — the only pending
cleanup performed is the remote deletePendingSnapshot hook (a no-op for
the in-memory client). -/
theorem c3_success_updates_state (ctx : BindingCtx) (w : World)
    (hnc : conflictsWith (alookup w.fsNotebooks (nbKey ctx.userId ctx.notebookId))
        (some w.binding.version) = false)
    (hs : w.sched = [true, true, true]) :
    (persistInternal ctx w).2 = .ok () ∧
    (persistInternal ctx w).1.binding.version = w.binding.version + 1 ∧
    alookup (persistInternal ctx w).1.cacheNotebooks (nbKey ctx.userId ctx.notebookId)
      = some (captureSnapshot ctx w.binding w.model w.now) ∧
    (persistInternal ctx w).1.persistFired = w.persistFired + 1 ∧
    (persistInternal ctx w).1.cachePending = w.cachePending := by
  simp [persistInternal, cacheWriteNotebook, fsSaveNotebook, fsSaveNotebookOnline,
    saveNotebookFS, hs, hnc, fsDeletePendingSnapshot, persistSession, fsSaveSession,
    captureSnapshot, storePendingSnapshot]

/-- Witness for the amended C3 from the baseline world with a reachable
network. -/
theorem c3_witness :
    conflictsWith (alookup ({ baseWorld with sched := [true, true, true] } : World).fsNotebooks
        (nbKey "u" "n")) (some 0) = false ∧
    ({ baseWorld with sched := [true, true, true] } : World).sched = [true, true, true] ∧
    ((persistInternal ctx0 { baseWorld with sched := [true, true, true] }).2 = .ok () ∧
     (persistInternal ctx0 { baseWorld with sched := [true, true, true] }).1.binding.version
       = 1 ∧
     alookup (persistInternal ctx0
         { baseWorld with sched := [true, true, true] }).1.cacheNotebooks (nbKey "u" "n")
       = some (captureSnapshot ctx0 (bindingAt 0) model0 100) ∧
     (persistInternal ctx0 { baseWorld with sched := [true, true, true] }).1.persistFired
       = 1 ∧
     (persistInternal ctx0 { baseWorld with sched := [true, true, true] }).1.cachePending
       = []) :=
  ⟨rfl, rfl,
   c3_success_updates_state ctx0 { baseWorld with sched := [true, true, true] } rfl rfl⟩

/-- Claim C6: a scheduled write whose remote save fails with the offline
condition stores the captured snapshot in the local cache pending queue
flagged pending = true, raises no error to the caller of flush (whatever
the network does to the subsequent session save), and leaves the remote
notebook store unchanged. -/
theorem c6_offline_queues_pending (ctx : BindingCtx) (w : World) (rest : List Bool)
    (h : w.sched = false :: rest) :
    (persistInternal ctx w).2 = .ok () ∧
    alookup (persistInternal ctx w).1.cachePending (nbKey ctx.userId ctx.notebookId)
      = some ((alookup w.cachePending (nbKey ctx.userId ctx.notebookId)).getD [] ++
          [{ captureSnapshot ctx w.binding w.model w.now with pending := some true }]) ∧
    (persistInternal ctx w).1.fsNotebooks = w.fsNotebooks := by
  rcases rest with _ | ⟨b, rest2⟩
  · simp [persistInternal, cacheWriteNotebook, fsSaveNotebook, h, storePendingSnapshot,
      persistSession, fsSaveSession, captureSnapshot]
  · cases b <;>
      simp [persistInternal, cacheWriteNotebook, fsSaveNotebook, h, storePendingSnapshot,
        persistSession, fsSaveSession, captureSnapshot]

/-- Witness for C6: a write against an offline store from the baseline
world completes normally and queues the captured snapshot pending. -/
theorem c6_witness :
    ({ baseWorld with sched := [false] } : World).sched = false :: [] ∧
    ((persistInternal ctx0 { baseWorld with sched := [false] }).2 = .ok () ∧
     alookup (persistInternal ctx0 { baseWorld with sched := [false] }).1.cachePending
         (nbKey "u" "n")
       = some [{ captureSnapshot ctx0 (bindingAt 0) model0 100 with pending := some true }] ∧
     (persistInternal ctx0 { baseWorld with sched := [false] }).1.fsNotebooks = []) :=
  ⟨rfl, c6_offline_queues_pending ctx0 { baseWorld with sched := [false] } [] rfl⟩

/-- Amended claim C7: each call to flush issues its own network save:
two consecutive flushes with no intervening edits issue two remote saves
(both succeed; the second writes an equivalent snapshot at the next
version after the necessary version check). -/
theorem c7_two_flushes_two_saves (ctx : BindingCtx) (w : World)
    (hnone : alookup w.fsNotebooks (nbKey ctx.userId ctx.notebookId) = none)
    (hs : w.sched = []) :
    (flush ctx w).2 = .ok () ∧
    (flush ctx (flush ctx w).1).2 = .ok () ∧
    ((flush ctx (flush ctx w).1).1).saveCalls = w.saveCalls + 2 := by
  simp [flush, persistInternal, cacheWriteNotebook, fsSaveNotebook, fsSaveNotebookOnline,
    saveNotebookFS, hs, hnone, conflictsWith, fsDeletePendingSnapshot, persistSession,
    fsSaveSession, captureSnapshot, storePendingSnapshot]

/-- Witness for the amended C7 from the baseline world. -/
theorem c7_witness :
    alookup baseWorld.fsNotebooks (nbKey "u" "n") = none ∧
    baseWorld.sched = [] ∧
    ((flush ctx0 baseWorld).2 = .ok () ∧
     (flush ctx0 (flush ctx0 baseWorld).1).2 = .ok () ∧
     ((flush ctx0 (flush ctx0 baseWorld).1).1).saveCalls = baseWorld.saveCalls + 2) :=
  ⟨rfl, rfl, c7_two_flushes_two_saves ctx0 baseWorld rfl rfl⟩
theorem remoteVersionMono_of_eq {w w' : World} {k : String}
    (h : w'.fsNotebooks = w.fsNotebooks) : remoteVersionMono w w' k := by
  intro cur hcur
  exact Or.inl (h ▸ hcur)

theorem remoteVersionMono_trans {w w1 w2 : World} {k : String}
    (h1 : remoteVersionMono w w1 k) (h2 : remoteVersionMono w1 w2 k) :
    remoteVersionMono w w2 k := by
  intro cur hcur
  rcases h1 cur hcur with h | ⟨s', hs', hv⟩
  · exact h2 cur h
  · rcases h2 s' hs' with h | ⟨s2, hs2, hv2⟩
    · exact Or.inr ⟨s', h, hv⟩
    · exact Or.inr ⟨s2, hs2, lt_trans hv hv2⟩

theorem saveNotebookFS_ok_mono (fs fs2 : List (String × EduNotebookSnapshot))
    (s p : EduNotebookSnapshot) (ev : Option Int)
    (h : saveNotebookFS fs s ev = .ok (fs2, p))
    (hgood : (∃ v, ev = some v ∧ v < s.version) ∨
      alookup fs (nbKey s.userId s.notebookId) = none)
    (k : String) (cur : EduNotebookSnapshot) (hcur : alookup fs k = some cur) :
    alookup fs2 k = some cur ∨
      ∃ s', alookup fs2 k = some s' ∧ cur.version < s'.version := by
  unfold saveNotebookFS at h
  by_cases hc : conflictsWith (alookup fs (nbKey s.userId s.notebookId)) ev = true
  · simp [hc] at h
  · simp [hc] at h
    rcases h with ⟨hfs2, hp⟩
    by_cases hk : k = nbKey s.userId s.notebookId
    · subst hk
      rcases hgood with ⟨v, hev, hv⟩ | hnone
      · right
        refine ⟨s, ?_, ?_⟩
        · rw [← hfs2, alookup_mset_self]
        · subst hev
          unfold conflictsWith at hc
          rw [hcur] at hc
          by_cases hcv : cur.version = v
          · omega
          · simp [hcv] at hc
      · rw [hnone] at hcur
        cases hcur
    · left
      rw [← hfs2, alookup_mset_ne _ _ _ _ (fun hh => hk hh.symm), hcur]

theorem fsSaveNotebook_mono (w w' : World) (s : EduNotebookSnapshot) (ev : Option Int)
    (r : Except StoreErr EduNotebookSnapshot)
    (h : fsSaveNotebook w s ev = (w', r))
    (hgood : (∃ v, ev = some v ∧ v < s.version) ∨
      alookup w.fsNotebooks (nbKey s.userId s.notebookId) = none)
    (k : String) : remoteVersionMono w w' k := by
  unfold fsSaveNotebook fsSaveNotebookOnline at h
  split at h
  · split at h
    · rcases h with ⟨rfl, rfl⟩
      exact remoteVersionMono_of_eq rfl
    · rename_i fs2 persisted hsv
      rcases h with ⟨rfl, rfl⟩
      intro cur hcur
      exact saveNotebookFS_ok_mono w.fsNotebooks fs2 s persisted ev hsv hgood k cur hcur
  · split at h
    · rcases h with ⟨rfl, rfl⟩
      exact remoteVersionMono_of_eq rfl
    · rename_i fs2 persisted hsv
      rcases h with ⟨rfl, rfl⟩
      intro cur hcur
      exact saveNotebookFS_ok_mono w.fsNotebooks fs2 s persisted ev hsv hgood k cur hcur
  · rcases h with ⟨rfl, rfl⟩
    exact remoteVersionMono_of_eq rfl

theorem fsGetNotebook_fs (w w' : World) (u n : String)
    (r : Except StoreErr (Option EduNotebookSnapshot))
    (h : fsGetNotebook w u n = (w', r)) :
    w'.fsNotebooks = w.fsNotebooks ∧
      ∀ o, r = .ok o → o = alookup w.fsNotebooks (nbKey u n) := by
  unfold fsGetNotebook at h
  split at h <;> rcases h with ⟨rfl, rfl⟩
  · exact ⟨rfl, by intro o ho; cases ho; rfl⟩
  · exact ⟨rfl, by intro o ho; cases ho; rfl⟩
  · exact ⟨rfl, by intro o ho; cases ho⟩

theorem fsDeletePendingSnapshot_fs (w w' : World) (r : Except StoreErr Unit)
    (h : fsDeletePendingSnapshot w = (w', r)) : w'.fsNotebooks = w.fsNotebooks := by
  unfold fsDeletePendingSnapshot at h
  split at h <;> rcases h with ⟨rfl, rfl⟩ <;> rfl

theorem fsSaveSession_fs (w w' : World) (session : NotebookSessionState)
    (r : Except StoreErr Unit) (h : fsSaveSession w session = (w', r)) :
    w'.fsNotebooks = w.fsNotebooks := by
  unfold fsSaveSession at h
  split at h <;> rcases h with ⟨rfl, rfl⟩ <;> rfl

theorem persistSession_fs (ctx : BindingCtx) (w w' : World) (r : Except StoreErr Unit)
    (h : persistSession ctx w = (w', r)) : w'.fsNotebooks = w.fsNotebooks := by
  unfold persistSession at h
  dsimp only at h
  split at h <;> rename_i heq <;> rcases h with ⟨rfl, rfl⟩ <;>
    [skip; skip; skip] <;>
  · have h2 := fsSaveSession_fs _ _ _ _ heq
    exact h2

theorem handleConflict_mono (ctx : BindingCtx) (ls : EduNotebookSnapshot)
    (w w' : World) (r : Except StoreErr Unit)
    (hu : ls.userId = ctx.userId) (hn : ls.notebookId = ctx.notebookId)
    (h : handleConflict ctx ls w = (w', r)) (k : String) :
    remoteVersionMono w w' k := by
  unfold handleConflict at h
  split at h
  · rename_i heq
    rcases h with ⟨rfl, rfl⟩
    exact remoteVersionMono_of_eq (fsGetNotebook_fs _ _ _ _ _ heq).1
  · rename_i w1 heq
    have hget := fsGetNotebook_fs _ _ _ _ _ heq
    have hnone : alookup w1.fsNotebooks (nbKey ls.userId ls.notebookId) = none := by
      rw [hu, hn, hget.1]
      exact (hget.2 none rfl).symm
    dsimp only at h
    split at h
    · rename_i heq2
      rcases h with ⟨rfl, rfl⟩
      exact remoteVersionMono_trans (remoteVersionMono_of_eq hget.1)
        (fsSaveNotebook_mono _ _ _ _ _ heq2 (Or.inr hnone) k)
    · rename_i heq2
      rcases h with ⟨rfl, rfl⟩
      exact remoteVersionMono_trans (remoteVersionMono_of_eq hget.1)
        (fsSaveNotebook_mono _ _ _ _ _ heq2 (Or.inr hnone) k)
  · rename_i w1 remoteSnap heq
    have hget := fsGetNotebook_fs _ _ _ _ _ heq
    have hgood : ∃ v, (some remoteSnap.version : Option Int) = some v ∧
        v < (mergeSnapshots ctx w1.now ls remoteSnap).version := by
      refine ⟨remoteSnap.version, rfl, ?_⟩
      unfold mergeSnapshots
      dsimp only
      have := le_max_right ls.version remoteSnap.version
      omega
    dsimp only at h
    split at h
    · rename_i heq2
      rcases h with ⟨rfl, rfl⟩
      exact remoteVersionMono_trans (remoteVersionMono_of_eq hget.1)
        (fsSaveNotebook_mono _ _ _ _ _ heq2 (Or.inl hgood) k)
    · rename_i heq2
      rcases h with ⟨rfl, rfl⟩
      exact remoteVersionMono_trans (remoteVersionMono_of_eq hget.1)
        (fsSaveNotebook_mono _ _ _ _ _ heq2 (Or.inl hgood) k)
    · rename_i heq2
      rcases h with ⟨rfl, rfl⟩
      exact remoteVersionMono_trans (remoteVersionMono_of_eq hget.1)
        (fsSaveNotebook_mono _ _ _ _ _ heq2 (Or.inl hgood) k)

theorem replayPending_mono (ctx : BindingCtx) (l : List EduNotebookSnapshot)
    (w : World) (k : String) : remoteVersionMono w (replayPending ctx l w) k := by
  induction l generalizing w with
  | nil => exact remoteVersionMono_of_eq rfl
  | cons p rest ih =>
      unfold replayPending
      have hgood : ∃ v, (some (p.version - 1) : Option Int) = some v ∧
          v < (⟨p.userId, p.notebookId, p.notebookUri, p.viewType, p.metadata,
            p.transientOptions, p.cells, p.transcripts, p.mcqAnswers,
            p.lessonProgress, p.version, p.updatedAt, none⟩ : EduNotebookSnapshot).version := by
        exact ⟨p.version - 1, rfl, by dsimp only; omega⟩
      rcases hs : fsSaveNotebook w { p with pending := none } (some (p.version - 1)) with ⟨w1, r1⟩
      have hm := fsSaveNotebook_mono _ _ _ _ _ hs (Or.inl hgood) k
      rcases r1 with e | ok
      · cases e
        · exact remoteVersionMono_trans hm (ih w1)
        · exact remoteVersionMono_trans hm (remoteVersionMono_of_eq rfl)
      · exact remoteVersionMono_trans hm (ih w1)

theorem restoreFinish_mono (ctx : BindingCtx) (w : World)
    (remote cached : Option EduNotebookSnapshot)
    (cachedPending : List EduNotebookSnapshot) (k : String) :
    remoteVersionMono w (restoreFinish ctx w remote cached cachedPending).1 k := by
  unfold restoreFinish
  split
  · have hrep := replayPending_mono ctx cachedPending w k
    dsimp only
    split
    · exact hrep
    · exact hrep
  · dsimp only
    split
    · exact remoteVersionMono_of_eq rfl
    · exact remoteVersionMono_of_eq rfl

theorem performRestore_mono (ctx : BindingCtx) (w : World) (k : String) :
    remoteVersionMono w (performRestore ctx w).1 k := by
  unfold performRestore
  dsimp only
  split
  · rename_i w2 heq
    have hget := fsGetNotebook_fs _ _ _ _ _ heq
    exact remoteVersionMono_trans (remoteVersionMono_of_eq hget.1)
      (restoreFinish_mono ctx w2 none _ _ k)
  · rename_i w2 e hne heq
    have hget := fsGetNotebook_fs _ _ _ _ _ heq
    exact remoteVersionMono_of_eq hget.1
  · rename_i w2 remote heq
    have hget := fsGetNotebook_fs _ _ _ _ _ heq
    exact remoteVersionMono_trans (remoteVersionMono_of_eq hget.1)
      (restoreFinish_mono ctx w2 remote _ _ k)

theorem persistInternal_mono (ctx : BindingCtx) (w : World) (k : String) :
    remoteVersionMono w (persistInternal ctx w).1 k := by
  have hvlt : w.binding.version < (captureSnapshot ctx w.binding w.model w.now).version := by
    unfold captureSnapshot
    dsimp only
    omega
  unfold persistInternal
  dsimp only
  split
  · -- the write attempt ended ok: the session is persisted afterwards
    rename_i wA u heq
    rcases hps : persistSession ctx wA with ⟨wf, rf⟩
    have hf := persistSession_fs _ _ _ _ hps
    have hmA : remoteVersionMono w wA k := by
      split at heq
      · -- first save ok
        rename_i w3 persisted heq2
        have hm3 : remoteVersionMono w w3 k :=
          fsSaveNotebook_mono _ _ _ _ _ heq2
            (Or.inl ⟨w.binding.version, rfl, hvlt⟩) k
        split at heq
        · -- deletePendingSnapshot ok
          rename_i w6 heq6
          have h6 := fsDeletePendingSnapshot_fs _ _ _ heq6
          rcases heq with ⟨rfl, -⟩
          exact remoteVersionMono_trans hm3
            (remoteVersionMono_of_eq (by dsimp only; rw [h6]; rfl))
        · -- deletePendingSnapshot conflict: handleConflict ran
          rename_i w6 heq6
          have h6 := fsDeletePendingSnapshot_fs _ _ _ heq6
          have hmc := handleConflict_mono ctx _ _ _ _ rfl rfl heq k
          exact remoteVersionMono_trans hm3
            (remoteVersionMono_trans (remoteVersionMono_of_eq h6) hmc)
        · -- deletePendingSnapshot offline: snapshot queued pending
          rename_i w6 heq6
          have h6 := fsDeletePendingSnapshot_fs _ _ _ heq6
          rcases heq with ⟨rfl, -⟩
          exact remoteVersionMono_trans hm3
            (remoteVersionMono_of_eq (by dsimp only [storePendingSnapshot]; rw [h6]; rfl))
      · -- first save conflicted: handleConflict ran
        rename_i w3 heq2
        have hm3 : remoteVersionMono w w3 k :=
          fsSaveNotebook_mono _ _ _ _ _ heq2
            (Or.inl ⟨w.binding.version, rfl, hvlt⟩) k
        have hmc := handleConflict_mono ctx _ _ _ _ rfl rfl heq k
        exact remoteVersionMono_trans hm3 hmc
      · -- first save offline: snapshot queued pending
        rename_i w3 heq2
        have hm3 : remoteVersionMono w w3 k :=
          fsSaveNotebook_mono _ _ _ _ _ heq2
            (Or.inl ⟨w.binding.version, rfl, hvlt⟩) k
        rcases heq with ⟨rfl, -⟩
        exact remoteVersionMono_trans hm3
          (remoteVersionMono_of_eq (by dsimp only [storePendingSnapshot]))
    dsimp only
    exact remoteVersionMono_trans hmA (remoteVersionMono_of_eq hf)
  · -- the write attempt ended in an error that propagates
    rename_i wA e heq
    have hmA : remoteVersionMono w wA k := by
      split at heq
      · -- first save ok
        rename_i w3 persisted heq2
        have hm3 : remoteVersionMono w w3 k :=
          fsSaveNotebook_mono _ _ _ _ _ heq2
            (Or.inl ⟨w.binding.version, rfl, hvlt⟩) k
        split at heq
        · rcases heq with ⟨rfl, h2⟩
        · rename_i w6 heq6
          have h6 := fsDeletePendingSnapshot_fs _ _ _ heq6
          have hmc := handleConflict_mono ctx _ _ _ _ rfl rfl heq k
          exact remoteVersionMono_trans hm3
            (remoteVersionMono_trans (remoteVersionMono_of_eq h6) hmc)
        · rcases heq with ⟨rfl, h2⟩
      · rename_i w3 heq2
        have hm3 : remoteVersionMono w w3 k :=
          fsSaveNotebook_mono _ _ _ _ _ heq2
            (Or.inl ⟨w.binding.version, rfl, hvlt⟩) k
        have hmc := handleConflict_mono ctx _ _ _ _ rfl rfl heq k
        exact remoteVersionMono_trans hm3 hmc
      · rcases heq with ⟨rfl, h2⟩
    exact hmA

/-- Claim C4: for every (user, document) key holding a stored document,
running a scheduled write (persistInternal: direct save, conflict-merge
retry, or unconditional resubmit) or a restore (performRestore: pending
replay) leaves that document either untouched or replaced by one with a
strictly larger version — the engine never writes a version lower than or
equal to the currently stored one, under every reachability schedule. -/
theorem c4_version_strictly_increases (ctx : BindingCtx) (w : World) (k : String) :
    remoteVersionMono w (persistInternal ctx w).1 k ∧
    remoteVersionMono w (performRestore ctx w).1 k :=
  ⟨persistInternal_mono ctx w k, performRestore_mono ctx w k⟩

/-- Witness for C4 at the concrete conflict state: the write conflicts,
merges and retries, and the stored version strictly increases (5 to 6). -/
theorem c4_witness :
    alookup c2baseWorld.fsNotebooks (nbKey "u" "n") = some c2stored ∧
    (alookup (persistInternal ctx0 c2baseWorld).1.fsNotebooks (nbKey "u" "n")
        = some c2stored ∨
      ∃ s', alookup (persistInternal ctx0 c2baseWorld).1.fsNotebooks (nbKey "u" "n")
          = some s' ∧ c2stored.version < s'.version) :=
  ⟨rfl, (c4_version_strictly_increases ctx0 c2baseWorld (nbKey "u" "n")).1 c2stored rfl⟩

